import Mathlib

/-!
Shallow embedding of the HumioAlert reconciliation controller
(`controllers` package, file `part_000`) and of the HumioAction secret
helpers (`api/v1alpha1/humioaction_secret_helpers.go`).

External collaborators (the Humio client, the Kubernetes API server and
the cluster-config resolver) are modelled as oracles: a record of the
results each call would return during the pass.  Every call the
controller issues is recorded in an explicit trace, so that claims about
"which remote calls happen in a pass" become statements about the trace.
-/

namespace HumioOperator

/-- Go `error` values, with just enough structure to model the two
classifications the source inspects (`k8serrors.IsNotFound` on the
Kubernetes get, `errors.As(err, &humioapi.EntityNotFound{})` on Humio
fetches) and the wrapping done by `logErrorAndReturn`
(`fmt.Errorf("%s: %w", msg, err)`). -/
inductive GoErr where
  | k8sNotFound : GoErr
  | entityNotFound : GoErr
  | generic (msg : String) : GoErr
  | wrapped (msg : String) (inner : GoErr) : GoErr
deriving DecidableEq, Repr

deriving instance DecidableEq for Except

/-- `errors.As(err, &humioapi.EntityNotFound{})`: the check unwraps
through `fmt.Errorf("%w")` wrapping. -/
def isEntityNotFound : GoErr → Bool
  | .entityNotFound => true
  | .wrapped _ inner => isEntityNotFound inner
  | _ => false

/-- `k8serrors.IsNotFound(err)` for the Kubernetes object get. -/
def isK8sNotFound : GoErr → Bool
  | .k8sNotFound => true
  | .wrapped _ inner => isK8sNotFound inner
  | _ => false

/-- `humioapi.Alert`: the remote resource snapshot.  Declarative fields
plus the three server-managed fields (`TimeOfLastTrigger`, `ID`,
`LastError`) that `sanitizeAlert` clears. -/
structure Alert where
  id : String
  name : String
  queryString : String
  queryStart : String
  description : String
  throttleTimeMillis : Int
  enabled : Bool
  actions : List String
  labels : List String
  timeOfLastTrigger : Int
  lastError : String
deriving DecidableEq, Repr

/-- The declarative part of `humiov1alpha1.HumioAlertSpec` that the
transform consumes: alert name, query, throttle, referenced
side-effect-target (action) names, labels. -/
structure HumioAlertSpec where
  name : String
  queryString : String
  queryStart : String
  description : String
  throttleTimeMillis : Int
  enabled : Bool
  actions : List String
  labels : List String
deriving DecidableEq, Repr

/-- `humiov1alpha1.HumioAlert`: the desired-state object, with the
metadata the controller inspects (deletion timestamp, finalizer list)
and the status state string. -/
structure HumioAlert where
  «namespace» : String
  name : String
  deletionTimestamp : Option Int
  finalizers : List String
  status : String
  spec : HumioAlertSpec
deriving DecidableEq, Repr

/-- Status state constants from `humiov1alpha1` (HumioAlertStateExists
etc.). -/
def HumioAlertStateExists : String := "Exists"

def HumioAlertStateConfigError : String := "ConfigError"

def HumioAlertStateNotFound : String := "NotFound"

/-- The controller's finalizer token (`humioFinalizer`, a package-level
constant of the controllers package defined outside this file). -/
def humioFinalizer : String := "core.humio.com/finalizer"

/-- Modelled from the spec: `helpers.ContainsElement` (helpers package,
not under src) — membership of a string in a list. -/
def containsElement (list : List String) (s : String) : Bool :=
  list.any (fun v => v == s)

/-- Modelled from the spec: `helpers.RemoveElement` (helpers package,
not under src) — "remove the finalizer token from DesiredResource";
drops every occurrence of `s`. -/
def removeElement (list : List String) (s : String) : List String :=
  list.filter (fun v => v ≠ s)

/-- One observable call issued by the controller during a pass.
`getAlert`, `getActionIds`, `addAlert`, `updateAlert`, `deleteAlert` are
remote (Humio) calls; `updateHa` is the Kubernetes write persisting the
finalizer list; `statusUpdate` is the Kubernetes status write;
`annotationsFixup` is the post-create annotation reconciliation. -/
inductive Call where
  | getAlert : Call
  | getActionIds : Call
  | addAlert : Call
  | updateAlert : Call
  | deleteAlert : Call
  | annotationsFixup : Call
  | updateHa (finalizers : List String) : Call
  | statusUpdate (state : String) : Call
deriving DecidableEq, Repr

/-- Remote-mutating calls: create, update, delete of the remote alert. -/
def Call.isRemoteMutating : Call → Bool
  | .addAlert => true
  | .updateAlert => true
  | .deleteAlert => true
  | _ => false

/-- Any remote (Humio) call, reads included. -/
def Call.isRemote : Call → Bool
  | .getAlert => true
  | .getActionIds => true
  | .addAlert => true
  | .updateAlert => true
  | .deleteAlert => true
  | _ => false

/-- Status writes to the desired-state store. -/
def Call.isStatusWrite : Call → Bool
  | .statusUpdate _ => true
  | _ => false

/-- Finalizer-list writes to the desired-state store. -/
def Call.isFinalizerWrite : Call → Bool
  | .updateHa _ => true
  | _ => false

/-- `ctrl.Result`: only the `Requeue` flag is used by this controller. -/
structure ReconcileResult where
  requeue : Bool
deriving DecidableEq, Repr

/-- Outcome of one `reconcileHumioAlert` pass: the returned
`(ctrl.Result, error)` pair, the desired-state object as mutated in
memory, and the trace of calls issued. -/
structure PassOut where
  result : ReconcileResult
  err : Option GoErr
  ha : HumioAlert
  calls : List Call
deriving DecidableEq, Repr

/-- Oracle for the collaborator calls `reconcileHumioAlert` can issue.
Each field is the result the corresponding call would return this pass.
`annotations` models `reconcileHumioAlertAnnotations` (a sibling file of
the controllers package, not under src). -/
structure ClientResponses where
  getAlert : Except GoErr Alert
  addAlert : Except GoErr Alert
  annotations : ReconcileResult × Option GoErr
  getActionIdsMap : Except GoErr (List (String × String))
  updateAlert : Except GoErr (Option Alert)
  deleteAlert : Option GoErr
  updateHa : Option GoErr
deriving Repr

/-- Association-list lookup, modelling Go map indexing
`actionIdMap[name]`. -/
def lookupStr (m : List (String × String)) (k : String) : Option String :=
  match m with
  | [] => none
  | (k', v) :: rest => if k' = k then some v else lookupStr rest k

/-- Modelled from the spec: resolution of every referenced side-effect-
target name through the ActionIdMap; fails when a name is absent
("Must fail (not silently substitute) if DesiredResource references a
side-effect-target name absent from ActionIdMap"). -/
def resolveActionIds (names : List String) (m : List (String × String)) :
    Except GoErr (List String) :=
  match names with
  | [] => .ok []
  | a :: rest =>
    match lookupStr m a with
    | none => .error (.generic ("actions not found: " ++ a))
    | some id =>
      match resolveActionIds rest m with
      | .error e => .error e
      | .ok ids => .ok (id :: ids)

/-- Modelled from the spec: `humio.AlertTransform` (pkg/humio, not under
src) — the pure function `(DesiredResource, ActionIdMap) →
RemoteResource`; it maps the declarative spec fields into the remote
alert shape, resolving action names to identifiers, and leaves the
server-managed fields (`ID`, `TimeOfLastTrigger`, `LastError`) at their
zero values. -/
def alertTransform (ha : HumioAlert) (m : List (String × String)) :
    Except GoErr Alert :=
  match resolveActionIds ha.spec.actions m with
  | .error e => .error e
  | .ok ids =>
    .ok { id := ""
          name := ha.spec.name
          queryString := ha.spec.queryString
          queryStart := ha.spec.queryStart
          description := ha.spec.description
          throttleTimeMillis := ha.spec.throttleTimeMillis
          enabled := ha.spec.enabled
          actions := ids
          labels := ha.spec.labels
          timeOfLastTrigger := 0
          lastError := "" }

/-- `sanitizeAlert` (source lines 214–218): clears
`TimeOfLastTrigger`, `ID` and `LastError`.  The Go function mutates in
place; here it returns the sanitized value. -/
def sanitizeAlert (alert : Alert) : Alert :=
  { alert with timeOfLastTrigger := 0, id := "", lastError := "" }

/-- `setState` (source lines 200–207): skips the write when the state is
unchanged, otherwise sets it on the object and issues the status
update.  `resp` is the oracle result of `r.Status().Update`; returns
(the error `setState` returns, the object as mutated, calls issued). -/
def setState (resp : Option GoErr) (state : String) (ha : HumioAlert) :
    Option GoErr × HumioAlert × List Call :=
  if ha.status = state then (none, ha, [])
  else (resp, { ha with status := state }, [.statusUpdate state])

/-- `reconcileHumioAlert` (source lines 104–191): the core pass —
deletion protocol, finalizer attachment, existence check / create,
drift detection / update. -/
def reconcileHumioAlert (resp : ClientResponses) (ha : HumioAlert) : PassOut :=
  if ha.deletionTimestamp.isSome then
    if containsElement ha.finalizers humioFinalizer then
      match resp.deleteAlert with
      | some e =>
        ⟨⟨false⟩, some (.wrapped "Delete alert returned error" e), ha,
          [.deleteAlert]⟩
      | none =>
        let ha' := { ha with finalizers := removeElement ha.finalizers humioFinalizer }
        match resp.updateHa with
        | some e => ⟨⟨false⟩, some e, ha', [.deleteAlert, .updateHa ha'.finalizers]⟩
        | none => ⟨⟨false⟩, none, ha', [.deleteAlert, .updateHa ha'.finalizers]⟩
    else
      ⟨⟨false⟩, none, ha, []⟩
  else if ¬ containsElement ha.finalizers humioFinalizer then
    let ha' := { ha with finalizers := ha.finalizers ++ [humioFinalizer] }
    match resp.updateHa with
    | some e => ⟨⟨false⟩, some e, ha', [.updateHa ha'.finalizers]⟩
    | none => ⟨⟨true⟩, none, ha', [.updateHa ha'.finalizers]⟩
  else
    match resp.getAlert with
    | .error e =>
      if isEntityNotFound e then
        match resp.addAlert with
        | .error e2 =>
          ⟨⟨false⟩, some (.wrapped "could not create alert" e2), ha,
            [.getAlert, .addAlert]⟩
        | .ok _ =>
          match resp.annotations with
          | (res, some e3) =>
            ⟨res, some e3, ha, [.getAlert, .addAlert, .annotationsFixup]⟩
          | (_, none) =>
            ⟨⟨true⟩, none, ha, [.getAlert, .addAlert, .annotationsFixup]⟩
      else
        ⟨⟨false⟩, some (.wrapped "could not check if alert exists" e), ha,
          [.getAlert]⟩
    | .ok curAlert =>
      match resp.getActionIdsMap with
      | .error e =>
        ⟨⟨false⟩, some (.wrapped "could not get action id mapping" e), ha,
          [.getAlert, .getActionIds]⟩
      | .ok actionIdMap =>
        match alertTransform ha actionIdMap with
        | .error e =>
          ⟨⟨false⟩, some (.wrapped "could not parse expected Alert" e), ha,
            [.getAlert, .getActionIds]⟩
        | .ok expectedAlert =>
          if sanitizeAlert curAlert ≠ expectedAlert then
            match resp.updateAlert with
            | .error e =>
              ⟨⟨false⟩, some (.wrapped "could not update alert" e), ha,
                [.getAlert, .getActionIds, .updateAlert]⟩
            | .ok _ =>
              ⟨⟨false⟩, none, ha, [.getAlert, .getActionIds, .updateAlert]⟩
          else
            ⟨⟨false⟩, none, ha, [.getAlert, .getActionIds]⟩

/-- The deferred status refresh (source lines 88–99): re-fetch the
remote alert and set the status to NotFound / ConfigError / Exists;
both the fetch error and the `setState` error are discarded.
`getResp` is the oracle result of the re-fetch (`none` models a nil
alert returned without error); returns the object as mutated and the
calls issued. -/
def statusRefresh (getResp : Except GoErr (Option Alert))
    (statusResp : Option GoErr) (ha : HumioAlert) : HumioAlert × List Call :=
  match getResp with
  | .error e =>
    if isEntityNotFound e then
      let r := setState statusResp HumioAlertStateNotFound ha
      (r.2.1, .getAlert :: r.2.2)
    else
      let r := setState statusResp HumioAlertStateConfigError ha
      (r.2.1, .getAlert :: r.2.2)
  | .ok none =>
    let r := setState statusResp HumioAlertStateConfigError ha
    (r.2.1, .getAlert :: r.2.2)
  | .ok (some _) =>
    let r := setState statusResp HumioAlertStateExists ha
    (r.2.1, .getAlert :: r.2.2)

/-- Oracle for the calls `Reconcile` itself issues: the Kubernetes get
of the HumioAlert, the cluster-config resolution
(`helpers.NewCluster`; `newClusterHasConfig` is true when it returns a
non-nil cluster whose `Config()` is non-nil), the status write of the
config-error path, the deferred refresh's fetch and status write, and
the client oracle for the inner pass. -/
structure ReconcilerOracle where
  getHa : Except GoErr HumioAlert
  newClusterErr : Option GoErr
  newClusterHasConfig : Bool
  client : ClientResponses
  configStatusUpdate : Option GoErr
  deferredGet : Except GoErr (Option Alert)
  deferredStatusUpdate : Option GoErr
deriving Repr

/-- Outcome of a full `Reconcile` call: the returned
`(ctrl.Result, error)` pair, the desired-state object as last mutated
(none when it was never loaded), and the full trace. -/
structure ReconOut where
  result : ReconcileResult
  err : Option GoErr
  ha : Option HumioAlert
  calls : List Call
deriving Repr

/-- `Reconcile` (source lines 53–102): namespace scoping, object load,
cluster-config resolution with the config-error path, the deferred
status refresh, and the inner pass.  In the config-error branch the Go
code reassigns `err` with `setState`'s result, so when the status write
succeeds the function returns that nil `err`, not the resolution
error. -/
def Reconcile (rNamespace reqNamespace : String) (o : ReconcilerOracle) :
    ReconOut :=
  if rNamespace ≠ "" ∧ rNamespace ≠ reqNamespace then
    ⟨⟨false⟩, none, none, []⟩
  else
    match o.getHa with
    | .error e =>
      if isK8sNotFound e then ⟨⟨false⟩, none, none, []⟩
      else ⟨⟨false⟩, some e, none, []⟩
    | .ok ha =>
      if o.newClusterErr.isSome ∨ o.newClusterHasConfig = false then
        let r := setState o.configStatusUpdate HumioAlertStateConfigError ha
        match r.1 with
        | some e =>
          ⟨⟨false⟩, some (.wrapped "unable to set alert state" e), some r.2.1,
            r.2.2⟩
        | none => ⟨⟨false⟩, none, some r.2.1, r.2.2⟩
      else
        let inner := reconcileHumioAlert o.client ha
        let refreshed := statusRefresh o.deferredGet o.deferredStatusUpdate inner.ha
        ⟨inner.result, inner.err, some refreshed.1, inner.calls ++ refreshed.2⟩

end HumioOperator

namespace HumioOperator

/-! ## HumioAction secret helpers (`api/v1alpha1/humioaction_secret_helpers.go`) -/

/-- `SlackPostMessageProperties` of a HumioAction spec: the field the
secret helpers read and clear. -/
structure SlackPostMessageProperties where
  apiToken : String
deriving DecidableEq, Repr

/-- The part of `humiov1alpha1.HumioActionSpec` the secret helpers
touch. -/
structure HumioActionSpec where
  slackPostMessageProperties : SlackPostMessageProperties
deriving DecidableEq, Repr

/-- `humiov1alpha1.HumioAction`: namespace/name identity plus spec. -/
structure HumioAction where
  «namespace» : String
  name : String
  spec : HumioActionSpec
deriving DecidableEq, Repr

/-- The global map `HaSecrets map[string]string`, modelled as an
association list threaded explicitly; insertion overwrites. -/
def HaSecrets := List (String × String)

/-- Go map lookup `HaSecrets[key]`. -/
def haSecretsLookup (m : List (String × String)) (k : String) : Option String :=
  lookupStr m k

/-- `fmt.Sprintf("%s-%s", hn.Namespace, hn.Name)`. -/
def haKey (hn : HumioAction) : String :=
  hn.«namespace» ++ "-" ++ hn.name

/-- `HaHasSecret` (source lines 7–12): look up the action's
namespace-name key; return the secret and true when found, "" and false
otherwise. -/
def HaHasSecret (m : List (String × String)) (hn : HumioAction) :
    String × Bool :=
  match haSecretsLookup m (haKey hn) with
  | some secret => (secret, true)
  | none => ("", false)

/-- `SecretFromHa` (source lines 17–22): store the action's Slack API
token under its namespace-name key and clear the token on the action.
Returns the updated map and the mutated action. -/
def SecretFromHa (m : List (String × String)) (hn : HumioAction) :
    List (String × String) × HumioAction :=
  let key := haKey hn
  let value := hn.spec.slackPostMessageProperties.apiToken
  ((key, value) :: m.filter (fun p => p.1 ≠ key),
    { hn with spec := { hn.spec with
        slackPostMessageProperties := { hn.spec.slackPostMessageProperties with
          apiToken := "" } } })

/-! ## Helper lemmas -/

theorem containsElement_removeElement (l : List String) (s : String) :
    containsElement (removeElement l s) s = false := by
  rw [containsElement, List.any_eq_false]
  intro x hx
  rcases List.mem_filter.mp hx with ⟨_, hne⟩
  simp only [decide_eq_true_eq] at hne
  simp only [beq_iff_eq]
  exact hne

theorem containsElement_append_self (l : List String) (s : String) :
    containsElement (l ++ [s]) s = true := by
  simp [containsElement]

/-! ## Concrete fixtures used by witnesses -/

/-- A sample declarative spec (the example scenario from the design
document). -/
def specDiskFull : HumioAlertSpec :=
  { name := "disk-full", queryString := "level=error", queryStart := "24h"
    description := "disk is full", throttleTimeMillis := 60000
    enabled := true, actions := ["slack-ops"], labels := ["ops"] }

/-- The corresponding resolved action map. -/
def actionMapFix : List (String × String) := [("slack-ops", "id-1")]

/-- The remote alert matching `specDiskFull` under `actionMapFix`. -/
def alertFix : Alert :=
  { id := "", name := "disk-full", queryString := "level=error"
    queryStart := "24h", description := "disk is full"
    throttleTimeMillis := 60000, enabled := true, actions := ["id-1"]
    labels := ["ops"], timeOfLastTrigger := 0, lastError := "" }

/-- A desired-state object with the finalizer attached, not marked for
deletion. -/
def haSteady : HumioAlert :=
  { «namespace» := "default", name := "disk-full", deletionTimestamp := none
    finalizers := [humioFinalizer], status := "Exists", spec := specDiskFull }

/-- A client oracle where every call succeeds and the remote alert
matches the transform. -/
def respSteady : ClientResponses :=
  { getAlert := .ok alertFix, addAlert := .ok alertFix
    annotations := (⟨false⟩, none), getActionIdsMap := .ok actionMapFix
    updateAlert := .ok (some alertFix), deleteAlert := none, updateHa := none }

/-- A reconciler oracle where everything succeeds and the remote alert
matches the transform. -/
def oracleSteady : ReconcilerOracle :=
  { getHa := .ok haSteady, newClusterErr := none, newClusterHasConfig := true
    client := respSteady, configStatusUpdate := none
    deferredGet := .ok (some alertFix), deferredStatusUpdate := none }

/-- A reconciler oracle where cluster-config resolution fails with an
error while every Kubernetes write succeeds. -/
def oracleConfigFail : ReconcilerOracle :=
  { getHa := .ok haSteady
    newClusterErr := some (.generic "failed to get cluster config")
    newClusterHasConfig := false
    client := respSteady, configStatusUpdate := none
    deferredGet := .ok (some alertFix), deferredStatusUpdate := none }

/-- A sample HumioAction carrying a Slack API token. -/
def actionFix : HumioAction :=
  { «namespace» := "default", name := "slack-ops"
    spec := { slackPostMessageProperties := { apiToken := "tok-123" } } }

/-! ## Claims -/

/-- C8: a DesiredResource with a deletion marker whose finalizer list
does not contain the controller's token produces a terminal no-op (no
requeue, nil error), an unchanged object and zero remote calls (empty
call trace). -/
theorem c8_noop_on_already_deleted (resp : ClientResponses) (ha : HumioAlert)
    (hdel : ha.deletionTimestamp.isSome = true)
    (hfin : containsElement ha.finalizers humioFinalizer = false) :
    reconcileHumioAlert resp ha = ⟨⟨false⟩, none, ha, []⟩ := by
  unfold reconcileHumioAlert
  simp [hdel, hfin]

/-- Witness for C8 at a concrete input. -/
theorem c8_noop_on_already_deleted_witness :
    ({ haSteady with deletionTimestamp := some 5, finalizers := [] } : HumioAlert).deletionTimestamp.isSome = true ∧
    containsElement ({ haSteady with deletionTimestamp := some 5, finalizers := [] } : HumioAlert).finalizers humioFinalizer = false ∧
    reconcileHumioAlert respSteady { haSteady with deletionTimestamp := some 5, finalizers := [] } =
      ⟨⟨false⟩, none, { haSteady with deletionTimestamp := some 5, finalizers := [] }, []⟩ :=
  ⟨by decide, by decide,
    c8_noop_on_already_deleted respSteady _ (by decide) (by decide)⟩

/-- C2: with a deletion marker and the finalizer present, a failed
remote delete returns that error (wrapped with the operation label) and
leaves the finalizer present, with the delete as the only remote call;
a successful remote delete removes the finalizer from the object,
issues the finalizer-list write persisting the removal, and makes no
further remote call in the pass. -/
theorem c2_delete_before_unfinalize (resp : ClientResponses) (ha : HumioAlert)
    (hdel : ha.deletionTimestamp.isSome = true)
    (hfin : containsElement ha.finalizers humioFinalizer = true) :
    (∀ e, resp.deleteAlert = some e →
      (reconcileHumioAlert resp ha).err =
          some (.wrapped "Delete alert returned error" e) ∧
      containsElement (reconcileHumioAlert resp ha).ha.finalizers humioFinalizer = true ∧
      (reconcileHumioAlert resp ha).calls.filter Call.isRemote = [.deleteAlert]) ∧
    (resp.deleteAlert = none →
      containsElement (reconcileHumioAlert resp ha).ha.finalizers humioFinalizer = false ∧
      Call.updateHa (removeElement ha.finalizers humioFinalizer) ∈
          (reconcileHumioAlert resp ha).calls ∧
      (reconcileHumioAlert resp ha).calls.filter Call.isRemote = [.deleteAlert]) := by
  constructor
  · intro e he
    unfold reconcileHumioAlert
    simp [hdel, hfin, he, Call.isRemote]
  · intro he
    unfold reconcileHumioAlert
    cases hu : resp.updateHa with
    | none =>
      simp [hdel, hfin, he, hu, Call.isRemote, containsElement_removeElement]
    | some e =>
      simp [hdel, hfin, he, hu, Call.isRemote, containsElement_removeElement]

/-- Witness for C2 at a concrete input (successful delete side). -/
theorem c2_delete_before_unfinalize_witness :
    ({ haSteady with deletionTimestamp := some 5 } : HumioAlert).deletionTimestamp.isSome = true ∧
    containsElement ({ haSteady with deletionTimestamp := some 5 } : HumioAlert).finalizers humioFinalizer = true ∧
    (respSteady.deleteAlert = none →
      containsElement (reconcileHumioAlert respSteady { haSteady with deletionTimestamp := some 5 }).ha.finalizers humioFinalizer = false ∧
      Call.updateHa (removeElement ({ haSteady with deletionTimestamp := some 5 } : HumioAlert).finalizers humioFinalizer) ∈
          (reconcileHumioAlert respSteady { haSteady with deletionTimestamp := some 5 }).calls ∧
      (reconcileHumioAlert respSteady { haSteady with deletionTimestamp := some 5 }).calls.filter Call.isRemote = [.deleteAlert]) :=
  ⟨by decide, by decide,
    (c2_delete_before_unfinalize respSteady _ (by decide) (by decide)).2⟩

/-- C3: without a deletion marker and with the finalizer absent, the
pass appends the token, issues exactly the finalizer-list write
persisting it, returns an immediate requeue with nil error, and issues
no remote call at all. -/
theorem c3_finalizer_before_mutation (resp : ClientResponses) (ha : HumioAlert)
    (hdel : ha.deletionTimestamp = none)
    (hfin : containsElement ha.finalizers humioFinalizer = false)
    (hupd : resp.updateHa = none) :
    (reconcileHumioAlert resp ha).result = ⟨true⟩ ∧
    (reconcileHumioAlert resp ha).err = none ∧
    containsElement (reconcileHumioAlert resp ha).ha.finalizers humioFinalizer = true ∧
    (reconcileHumioAlert resp ha).calls =
        [.updateHa (ha.finalizers ++ [humioFinalizer])] ∧
    (reconcileHumioAlert resp ha).calls.filter Call.isRemote = [] := by
  unfold reconcileHumioAlert
  simp [hdel, hfin, hupd, Call.isRemote, containsElement_append_self]

/-- Witness for C3 at a concrete input. -/
theorem c3_finalizer_before_mutation_witness :
    ({ haSteady with finalizers := [] } : HumioAlert).deletionTimestamp = none ∧
    containsElement ({ haSteady with finalizers := [] } : HumioAlert).finalizers humioFinalizer = false ∧
    respSteady.updateHa = none ∧
    ((reconcileHumioAlert respSteady { haSteady with finalizers := [] }).result = ⟨true⟩ ∧
     (reconcileHumioAlert respSteady { haSteady with finalizers := [] }).err = none ∧
     containsElement (reconcileHumioAlert respSteady { haSteady with finalizers := [] }).ha.finalizers humioFinalizer = true ∧
     (reconcileHumioAlert respSteady { haSteady with finalizers := [] }).calls =
         [.updateHa (([] : List String) ++ [humioFinalizer])] ∧
     (reconcileHumioAlert respSteady { haSteady with finalizers := [] }).calls.filter Call.isRemote = []) :=
  ⟨by decide, by decide, by decide,
    c3_finalizer_before_mutation respSteady _ (by decide) (by decide) (by decide)⟩

/-- C4: when the fetch succeeds, the action map resolves, and the
sanitized fetched alert equals the transform of the desired state, the
pass issues zero remote-mutating calls and zero status writes, leaves
the stored status unchanged, and returns nil error; moreover `setState`
skips the write whenever the new state equals the current one. -/
theorem c4_idempotence (resp : ClientResponses) (ha : HumioAlert)
    (cur : Alert) (m : List (String × String)) (exp : Alert)
    (hdel : ha.deletionTimestamp = none)
    (hfin : containsElement ha.finalizers humioFinalizer = true)
    (hget : resp.getAlert = .ok cur)
    (hmap : resp.getActionIdsMap = .ok m)
    (htr : alertTransform ha m = .ok exp)
    (heq : sanitizeAlert cur = exp) :
    (reconcileHumioAlert resp ha).calls.filter Call.isRemoteMutating = [] ∧
    (reconcileHumioAlert resp ha).calls.filter Call.isStatusWrite = [] ∧
    (reconcileHumioAlert resp ha).ha.status = ha.status ∧
    (reconcileHumioAlert resp ha).err = none ∧
    (∀ sresp s h, h.status = s → setState sresp s h = (none, h, [])) := by
  unfold reconcileHumioAlert
  simp [hdel, hfin, hget, hmap, htr, heq, Call.isRemoteMutating,
    Call.isStatusWrite]
  intro sresp s h hs
  unfold setState
  simp [hs]

/-- Witness for C4 at a concrete input. -/
theorem c4_idempotence_witness :
    haSteady.deletionTimestamp = none ∧
    containsElement haSteady.finalizers humioFinalizer = true ∧
    respSteady.getAlert = .ok alertFix ∧
    respSteady.getActionIdsMap = .ok actionMapFix ∧
    alertTransform haSteady actionMapFix = .ok alertFix ∧
    sanitizeAlert alertFix = alertFix ∧
    ((reconcileHumioAlert respSteady haSteady).calls.filter Call.isRemoteMutating = [] ∧
     (reconcileHumioAlert respSteady haSteady).calls.filter Call.isStatusWrite = [] ∧
     (reconcileHumioAlert respSteady haSteady).ha.status = haSteady.status ∧
     (reconcileHumioAlert respSteady haSteady).err = none ∧
     (∀ sresp s h, h.status = s → setState sresp s h = (none, h, []))) :=
  ⟨by decide, by decide, by decide, by decide, by decide, by decide,
    c4_idempotence respSteady haSteady alertFix actionMapFix alertFix
      (by decide) (by decide) (by decide) (by decide) (by decide) (by decide)⟩

/-- C5: when the existence fetch fails with the not-found
classification, the pass issues the remote create and never the
action-map fetch or the update; a failed create returns the wrapped
creation error; a successful create runs the annotation fix-up and,
when the fix-up succeeds, returns an immediate requeue with nil
error. -/
theorem c5_create_on_not_found (resp : ClientResponses) (ha : HumioAlert)
    (e : GoErr)
    (hdel : ha.deletionTimestamp = none)
    (hfin : containsElement ha.finalizers humioFinalizer = true)
    (hget : resp.getAlert = .error e)
    (hnf : isEntityNotFound e = true) :
    Call.addAlert ∈ (reconcileHumioAlert resp ha).calls ∧
    Call.getActionIds ∉ (reconcileHumioAlert resp ha).calls ∧
    Call.updateAlert ∉ (reconcileHumioAlert resp ha).calls ∧
    (∀ e2, resp.addAlert = .error e2 →
      (reconcileHumioAlert resp ha).err =
        some (.wrapped "could not create alert" e2)) ∧
    (∀ a, resp.addAlert = .ok a →
      Call.annotationsFixup ∈ (reconcileHumioAlert resp ha).calls ∧
      (resp.annotations.2 = none →
        (reconcileHumioAlert resp ha).result = ⟨true⟩ ∧
        (reconcileHumioAlert resp ha).err = none)) := by
  unfold reconcileHumioAlert
  cases hadd : resp.addAlert with
  | error e2 =>
    simp [hdel, hfin, hget, hnf, hadd]
  | ok a =>
    rcases hann : resp.annotations with ⟨res, oe⟩
    cases oe with
    | none => simp [hdel, hfin, hget, hnf, hadd, hann]
    | some e3 => simp [hdel, hfin, hget, hnf, hadd, hann]

/-- Witness for C5 at a concrete input (create succeeds, fix-up
succeeds). -/
theorem c5_create_on_not_found_witness :
    haSteady.deletionTimestamp = none ∧
    containsElement haSteady.finalizers humioFinalizer = true ∧
    ({ respSteady with getAlert := .error .entityNotFound } : ClientResponses).getAlert = .error .entityNotFound ∧
    isEntityNotFound .entityNotFound = true ∧
    (Call.addAlert ∈ (reconcileHumioAlert { respSteady with getAlert := .error .entityNotFound } haSteady).calls ∧
     Call.getActionIds ∉ (reconcileHumioAlert { respSteady with getAlert := .error .entityNotFound } haSteady).calls ∧
     Call.updateAlert ∉ (reconcileHumioAlert { respSteady with getAlert := .error .entityNotFound } haSteady).calls ∧
     (∀ e2, ({ respSteady with getAlert := .error .entityNotFound } : ClientResponses).addAlert = .error e2 →
       (reconcileHumioAlert { respSteady with getAlert := .error .entityNotFound } haSteady).err =
         some (.wrapped "could not create alert" e2)) ∧
     (∀ a, ({ respSteady with getAlert := .error .entityNotFound } : ClientResponses).addAlert = .ok a →
       Call.annotationsFixup ∈ (reconcileHumioAlert { respSteady with getAlert := .error .entityNotFound } haSteady).calls ∧
       (({ respSteady with getAlert := .error .entityNotFound } : ClientResponses).annotations.2 = none →
         (reconcileHumioAlert { respSteady with getAlert := .error .entityNotFound } haSteady).result = ⟨true⟩ ∧
         (reconcileHumioAlert { respSteady with getAlert := .error .entityNotFound } haSteady).err = none))) :=
  ⟨by decide, by decide, by decide, by decide,
    c5_create_on_not_found _ haSteady .entityNotFound
      (by decide) (by decide) (by decide) (by decide)⟩

/-- C7: sanitization clears exactly the three server-managed fields,
and a fetched alert that agrees with the transform on every other field
is sanitized to exactly the transform, so the pass issues no update and
no remote-mutating call. -/
theorem c7_sanitization_exclusion (resp : ClientResponses) (ha : HumioAlert)
    (cur : Alert) (m : List (String × String)) (exp : Alert)
    (hdel : ha.deletionTimestamp = none)
    (hfin : containsElement ha.finalizers humioFinalizer = true)
    (hget : resp.getAlert = .ok cur)
    (hmap : resp.getActionIdsMap = .ok m)
    (htr : alertTransform ha m = .ok exp)
    (hname : cur.name = exp.name)
    (hquery : cur.queryString = exp.queryString)
    (hstart : cur.queryStart = exp.queryStart)
    (hdesc : cur.description = exp.description)
    (hthrottle : cur.throttleTimeMillis = exp.throttleTimeMillis)
    (henabled : cur.enabled = exp.enabled)
    (hactions : cur.actions = exp.actions)
    (hlabels : cur.labels = exp.labels) :
    sanitizeAlert cur = exp ∧
    Call.updateAlert ∉ (reconcileHumioAlert resp ha).calls ∧
    (reconcileHumioAlert resp ha).calls.filter Call.isRemoteMutating = [] ∧
    (∀ a, (sanitizeAlert a).id = "" ∧ (sanitizeAlert a).timeOfLastTrigger = 0 ∧
      (sanitizeAlert a).lastError = "" ∧ (sanitizeAlert a).name = a.name ∧
      (sanitizeAlert a).queryString = a.queryString ∧
      (sanitizeAlert a).queryStart = a.queryStart ∧
      (sanitizeAlert a).description = a.description ∧
      (sanitizeAlert a).throttleTimeMillis = a.throttleTimeMillis ∧
      (sanitizeAlert a).enabled = a.enabled ∧
      (sanitizeAlert a).actions = a.actions ∧
      (sanitizeAlert a).labels = a.labels) := by
  have hzero : exp.id = "" ∧ exp.timeOfLastTrigger = 0 ∧ exp.lastError = "" := by
    unfold alertTransform at htr
    cases hres : resolveActionIds ha.spec.actions m with
    | error e => rw [hres] at htr; cases htr
    | ok ids =>
      rw [hres] at htr
      injection htr with h
      rw [← h]
      exact ⟨rfl, rfl, rfl⟩
  have hsan : sanitizeAlert cur = exp := by
    cases cur
    cases exp
    simp only [sanitizeAlert] at *
    simp_all
  refine ⟨hsan, ?_, ?_, ?_⟩
  · unfold reconcileHumioAlert
    simp [hdel, hfin, hget, hmap, htr, hsan]
  · unfold reconcileHumioAlert
    simp [hdel, hfin, hget, hmap, htr, hsan, Call.isRemoteMutating]
  · intro a
    cases a
    simp [sanitizeAlert]

/-- Witness for C7 at a concrete input: a fetched alert differing from
the transform only in the three server-managed fields. -/
theorem c7_sanitization_exclusion_witness :
    haSteady.deletionTimestamp = none ∧
    containsElement haSteady.finalizers humioFinalizer = true ∧
    ({ respSteady with getAlert := .ok { alertFix with id := "remote-7", timeOfLastTrigger := 99, lastError := "boom" } } : ClientResponses).getAlert = .ok { alertFix with id := "remote-7", timeOfLastTrigger := 99, lastError := "boom" } ∧
    respSteady.getActionIdsMap = .ok actionMapFix ∧
    alertTransform haSteady actionMapFix = .ok alertFix ∧
    (sanitizeAlert { alertFix with id := "remote-7", timeOfLastTrigger := 99, lastError := "boom" } = alertFix ∧
     Call.updateAlert ∉ (reconcileHumioAlert { respSteady with getAlert := .ok { alertFix with id := "remote-7", timeOfLastTrigger := 99, lastError := "boom" } } haSteady).calls ∧
     (reconcileHumioAlert { respSteady with getAlert := .ok { alertFix with id := "remote-7", timeOfLastTrigger := 99, lastError := "boom" } } haSteady).calls.filter Call.isRemoteMutating = [] ∧
     (∀ a, (sanitizeAlert a).id = "" ∧ (sanitizeAlert a).timeOfLastTrigger = 0 ∧
       (sanitizeAlert a).lastError = "" ∧ (sanitizeAlert a).name = a.name ∧
       (sanitizeAlert a).queryString = a.queryString ∧
       (sanitizeAlert a).queryStart = a.queryStart ∧
       (sanitizeAlert a).description = a.description ∧
       (sanitizeAlert a).throttleTimeMillis = a.throttleTimeMillis ∧
       (sanitizeAlert a).enabled = a.enabled ∧
       (sanitizeAlert a).actions = a.actions ∧
       (sanitizeAlert a).labels = a.labels)) :=
  ⟨by decide, by decide, by decide, by decide, by decide,
    c7_sanitization_exclusion _ haSteady _ actionMapFix alertFix
      (by decide) (by decide) (by decide) (by decide) (by decide)
      (by decide) (by decide) (by decide) (by decide) (by decide)
      (by decide) (by decide) (by decide)⟩

/-- Per-pass call bounds of the core pass: at most one remote-mutating
call, no status write, at most one finalizer-list write. -/
theorem reconcile_pass_call_bounds (resp : ClientResponses) (ha : HumioAlert) :
    ((reconcileHumioAlert resp ha).calls.filter Call.isRemoteMutating).length ≤ 1 ∧
    ((reconcileHumioAlert resp ha).calls.filter Call.isStatusWrite).length = 0 ∧
    ((reconcileHumioAlert resp ha).calls.filter Call.isFinalizerWrite).length ≤ 1 := by
  unfold reconcileHumioAlert
  repeat' split
  all_goals
    simp [Call.isRemoteMutating, Call.isStatusWrite, Call.isFinalizerWrite]

/-- Call bounds of the deferred status refresh: no remote-mutating
call, at most one status write, no finalizer-list write. -/
theorem statusRefresh_call_bounds (g : Except GoErr (Option Alert))
    (s : Option GoErr) (ha : HumioAlert) :
    ((statusRefresh g s ha).2.filter Call.isRemoteMutating).length = 0 ∧
    ((statusRefresh g s ha).2.filter Call.isStatusWrite).length ≤ 1 ∧
    ((statusRefresh g s ha).2.filter Call.isFinalizerWrite).length = 0 := by
  unfold statusRefresh setState
  repeat' split
  all_goals
    simp [Call.isRemoteMutating, Call.isStatusWrite, Call.isFinalizerWrite]

/-- C6: over the whole `Reconcile` call — every branch, the deferred
refresh included — at most one remote-mutating call, at most one status
write and at most one finalizer-list write are issued. -/
theorem c6_at_most_one_remote_mutating (rns reqns : String)
    (o : ReconcilerOracle) :
    ((Reconcile rns reqns o).calls.filter Call.isRemoteMutating).length ≤ 1 ∧
    ((Reconcile rns reqns o).calls.filter Call.isStatusWrite).length ≤ 1 ∧
    ((Reconcile rns reqns o).calls.filter Call.isFinalizerWrite).length ≤ 1 := by
  by_cases hns : rns ≠ "" ∧ rns ≠ reqns
  · simp [Reconcile, hns]
  · cases hget : o.getHa with
    | error e =>
      by_cases hk : isK8sNotFound e = true
      · simp [Reconcile, hns, hget, hk]
      · simp [Reconcile, hns, hget, hk]
    | ok ha =>
      by_cases hc : o.newClusterErr.isSome ∨ o.newClusterHasConfig = false
      · unfold Reconcile setState
        rw [if_neg hns, hget]
        simp only [if_pos hc]
        repeat' split
        all_goals
          simp [Call.isRemoteMutating, Call.isStatusWrite, Call.isFinalizerWrite]
      · have h1 := reconcile_pass_call_bounds o.client ha
        have h2 := statusRefresh_call_bounds o.deferredGet o.deferredStatusUpdate
          (reconcileHumioAlert o.client ha).ha
        unfold Reconcile
        rw [if_neg hns, hget]
        simp only [if_neg hc]
        simp only [List.filter_append, List.length_append]
        omega

/-- The object `setState` hands back always carries the requested
state (written or already present). -/
theorem setState_status (resp : Option GoErr) (s : String) (ha : HumioAlert) :
    ((setState resp s ha).2.1).status = s := by
  unfold setState
  split
  · next h => simpa using h
  · simp

/-- The deferred refresh classifies the re-fetch result into
NotFound / ConfigError / Exists. -/
theorem statusRefresh_status (g : Except GoErr (Option Alert))
    (s : Option GoErr) (ha : HumioAlert) :
    (statusRefresh g s ha).1.status =
      (match g with
        | .error e =>
          if isEntityNotFound e then HumioAlertStateNotFound
          else HumioAlertStateConfigError
        | .ok none => HumioAlertStateConfigError
        | .ok (some _) => HumioAlertStateExists) := by
  unfold statusRefresh
  cases g with
  | error e =>
    by_cases h : isEntityNotFound e = true
    · simp [h, setState_status]
    · simp [h, setState_status]
  | ok oa => cases oa <;> simp [setState_status]

/-- C9: once configuration resolution succeeds, `Reconcile` returns
exactly the result and error of the primary pass — for every outcome of
the deferred refresh's fetch and status write, so the refresh's own
failures are discarded — and the object's final status is the refresh's
classification of the re-fetch: NotFound when it failed with the
not-found condition, ConfigError when it failed otherwise or returned
nothing, Exists when it succeeded. -/
theorem c9_deferred_refresh (rns reqns : String) (o : ReconcilerOracle)
    (ha : HumioAlert)
    (hns : rns = "" ∨ rns = reqns)
    (hget : o.getHa = .ok ha)
    (herr : o.newClusterErr = none)
    (hcfg : o.newClusterHasConfig = true) :
    (Reconcile rns reqns o).result = (reconcileHumioAlert o.client ha).result ∧
    (Reconcile rns reqns o).err = (reconcileHumioAlert o.client ha).err ∧
    (Reconcile rns reqns o).ha.map HumioAlert.status =
      some (match o.deferredGet with
        | .error e =>
          if isEntityNotFound e then HumioAlertStateNotFound
          else HumioAlertStateConfigError
        | .ok none => HumioAlertStateConfigError
        | .ok (some _) => HumioAlertStateExists) := by
  have hns' : ¬(rns ≠ "" ∧ rns ≠ reqns) := by
    rcases hns with h | h <;> simp [h]
  unfold Reconcile
  rw [if_neg hns', hget]
  simp [herr, hcfg, statusRefresh_status]

/-- Witness for C9 at a concrete input (refresh fetch succeeds). -/
theorem c9_deferred_refresh_witness :
    (("" : String) = "" ∨ ("" : String) = "default") ∧
    oracleSteady.getHa = .ok haSteady ∧
    oracleSteady.newClusterErr = none ∧
    oracleSteady.newClusterHasConfig = true ∧
    ((Reconcile "" "default" oracleSteady).result =
        (reconcileHumioAlert oracleSteady.client haSteady).result ∧
     (Reconcile "" "default" oracleSteady).err =
        (reconcileHumioAlert oracleSteady.client haSteady).err ∧
     (Reconcile "" "default" oracleSteady).ha.map HumioAlert.status =
       some (match oracleSteady.deferredGet with
         | .error e =>
           if isEntityNotFound e then HumioAlertStateNotFound
           else HumioAlertStateConfigError
         | .ok none => HumioAlertStateConfigError
         | .ok (some _) => HumioAlertStateExists)) :=
  ⟨Or.inl rfl, by decide, by decide, by decide,
    c9_deferred_refresh "" "default" oracleSteady haSteady
      (Or.inl rfl) (by decide) (by decide) (by decide)⟩

/-- C1 (the code's behavior on the config-error path, shown at a
concrete input): cluster-config resolution fails with an error, the
ConfigError status write succeeds — and `Reconcile` returns a nil
error.  The Go code reassigns `err` with `setState`'s result, so the
resolution error is dropped whenever the status write succeeds. -/
theorem c1_config_error_returns_nil :
    oracleConfigFail.newClusterErr =
        some (.generic "failed to get cluster config") ∧
    (Reconcile "" "default" oracleConfigFail).calls =
        [.statusUpdate HumioAlertStateConfigError] ∧
    (Reconcile "" "default" oracleConfigFail).err = none := by
  decide

/-- C10: `SecretFromHa` stores the action's Slack API token under its
namespace-name key and clears the field on the action; `HaHasSecret`
then recovers the original token with `true`, while any action whose
key was never stored yields `("", false)`. -/
theorem c10_secret_helpers (m m0 : List (String × String))
    (hn hn0 : HumioAction)
    (h0 : haSecretsLookup m0 (haKey hn0) = none) :
    HaHasSecret (SecretFromHa m hn).1 (SecretFromHa m hn).2 =
      (hn.spec.slackPostMessageProperties.apiToken, true) ∧
    (SecretFromHa m hn).2.spec.slackPostMessageProperties.apiToken = "" ∧
    HaHasSecret m0 hn0 = ("", false) := by
  refine ⟨?_, rfl, ?_⟩
  · unfold HaHasSecret haSecretsLookup SecretFromHa haKey lookupStr
    simp
  · unfold HaHasSecret
    rw [h0]

/-- Witness for C10 at a concrete input. -/
theorem c10_secret_helpers_witness :
    haSecretsLookup [] (haKey actionFix) = none ∧
    (HaHasSecret (SecretFromHa [] actionFix).1 (SecretFromHa [] actionFix).2 =
      (actionFix.spec.slackPostMessageProperties.apiToken, true) ∧
     (SecretFromHa [] actionFix).2.spec.slackPostMessageProperties.apiToken = "" ∧
     HaHasSecret [] actionFix = ("", false)) :=
  ⟨by decide, c10_secret_helpers [] [] actionFix actionFix (by decide)⟩

end HumioOperator
